import Mathlib

/-!
Shallow embedding of the `aumai_alignment` core module
(`src/aumai_alignment/core.py` together with the pydantic models in
`src/aumai_alignment/models.py`).

Modelling conventions:
* Python `dict[str, V]` becomes an insertion-ordered association list
  `List (String × V)`; assigning an existing key replaces the entry in place
  (preserving its position, as CPython dicts do), assigning a new key appends.
* Python `float` values become `ℚ` (exact rationals standing for the reals the
  specification talks about).
* `str.lower()` becomes a character-wise `Char.toLower` map; `str.strip()`
  drops whitespace from both ends; `" ".join(...)` joins with single spaces.
* `re.search(re.escape(q), s)` in `DatasetRegistry.search` is escaped literal
  matching, hence it is embedded as literal substring containment.
* pydantic field validation of `EvaluationResult.score` (declared with
  `ge=0.0, le=1.0`) is embedded in `mkEvaluationResult`, which rejects a
  score outside `[0, 1]` exactly as pydantic raises a `ValidationError`
  at construction time.
* `datetime.now(tz=timezone.utc)` is an external input; `evaluate` receives
  the captured timestamp as an explicit `now : ℕ` argument.
* A raised exception is an `Except.error`; `evaluate` returns its (unchanged)
  runner state alongside the error, mirroring that a Python exception leaves
  `self._results` untouched.
-/

namespace AumaiAlignment

/-- Association-list lookup modelling Python `dict.__getitem__` /
`dict.get`: the first (unique) entry with the given key. -/
def dictGet {α : Type} (k : String) : List (String × α) → Option α
  | [] => none
  | (k', v) :: rest => if k' = k then some v else dictGet k rest

/-- Association-list assignment modelling Python `dict.__setitem__`:
replace in place when the key is present (keeping its position, as CPython
dicts keep insertion order), append when it is absent. -/
def dictSet {α : Type} (k : String) (v : α) : List (String × α) → List (String × α)
  | [] => [(k, v)]
  | (k', v') :: rest => if k' = k then (k, v) :: rest else (k', v') :: dictSet k v rest

/-- Character-wise lowercasing, embedding Python `str.lower()`. -/
def lowerStr (s : String) : String := ⟨s.data.map Char.toLower⟩

/-- Removal of leading and trailing whitespace, embedding Python
`str.strip()`. -/
def stripStr (s : String) : String :=
  ⟨((s.data.dropWhile Char.isWhitespace).reverse.dropWhile Char.isWhitespace).reverse⟩

/-- Joining with single spaces, embedding Python `" ".join(...)`. -/
def joinSpace : List String → String
  | [] => ""
  | [s] => s
  | s :: rest => s ++ " " ++ joinSpace rest

/-- Does the second character list start with the first? -/
def segStarts : List Char → List Char → Bool
  | [], _ => true
  | _ :: _, [] => false
  | a :: as, b :: bs => a == b && segStarts as bs

/-- Does the haystack contain the needle as a contiguous segment? -/
def hasSeg (needle : List Char) : List Char → Bool
  | [] => needle.isEmpty
  | c :: rest => segStarts needle (c :: rest) || hasSeg needle rest

/-- Literal substring containment, embedding
`re.search(re.escape(needle), hay) is not None`: `re.escape` makes every
regex metacharacter literal, so the search succeeds exactly when `needle`
occurs in `hay` as a plain substring. -/
def strContains (hay needle : String) : Bool := hasSeg needle.data hay.data

/-- The `AlignmentDataset` pydantic model (`models.py`). Field validation
(`size ≥ 0`, `quality_score ∈ [0,1]`) happens when the serving layer builds
the record; the registry itself never constructs datasets. -/
structure AlignmentDataset where
  dataset_id : String
  name : String
  description : String
  category : String
  size : ℕ
  format : String
  license : String
  tags : List String
  download_url : Option String
  quality_score : ℚ
deriving DecidableEq

/-- The `MarketplaceListing` pydantic model (`models.py`): a dataset plus
marketplace metadata, defaulting to `downloads=0`, `rating=0.0`, `reviews=0`. -/
structure MarketplaceListing where
  dataset : AlignmentDataset
  downloads : ℕ
  rating : ℚ
  reviews : ℕ
deriving DecidableEq

/-- The `DatasetNotFoundError(KeyError)` raised by `DatasetRegistry.get`,
carrying the offending identifier. -/
structure DatasetNotFoundError where
  dataset_id : String
deriving DecidableEq

/-- State of `DatasetRegistry`: the two dicts set up in `__init__`
(`self._datasets` and `self._listings`), both empty at construction. -/
structure DatasetRegistry where
  datasets : List (String × AlignmentDataset)
  listings : List (String × MarketplaceListing)
deriving DecidableEq

/-- The freshly constructed registry (`DatasetRegistry.__init__`). -/
def DatasetRegistry.init : DatasetRegistry := { datasets := [], listings := [] }

/-- `DatasetRegistry.register`: store the dataset under its id; create a
zero-state listing when none exists, otherwise rebuild the listing around the
new dataset while carrying the existing downloads/rating/reviews forward. -/
def DatasetRegistry.register (r : DatasetRegistry) (dataset : AlignmentDataset) :
    DatasetRegistry :=
  let datasets := dictSet dataset.dataset_id dataset r.datasets
  match dictGet dataset.dataset_id r.listings with
  | none =>
      { datasets := datasets
        listings := dictSet dataset.dataset_id
          { dataset := dataset, downloads := 0, rating := 0, reviews := 0 } r.listings }
  | some existing =>
      { datasets := datasets
        listings := dictSet dataset.dataset_id
          { dataset := dataset, downloads := existing.downloads,
            rating := existing.rating, reviews := existing.reviews } r.listings }

/-- `DatasetRegistry.get`: return the stored dataset, or raise
`DatasetNotFoundError(dataset_id)` when the id has no record. -/
def DatasetRegistry.get (r : DatasetRegistry) (dataset_id : String) :
    Except DatasetNotFoundError AlignmentDataset :=
  match dictGet dataset_id r.datasets with
  | some d => .ok d
  | none => .error ⟨dataset_id⟩

/-- `DatasetRegistry.increment_downloads`: bump the listing's download count
by one when a listing exists; silently do nothing otherwise. -/
def DatasetRegistry.increment_downloads (r : DatasetRegistry) (dataset_id : String) :
    DatasetRegistry :=
  match dictGet dataset_id r.listings with
  | none => r
  | some listing =>
      { r with
        listings := dictSet dataset_id
          { dataset := listing.dataset, downloads := listing.downloads + 1,
            rating := listing.rating, reviews := listing.reviews } r.listings }

/-- Searchable text of a dataset in `DatasetRegistry.search`:
`" ".join([dataset.name, dataset.description] + dataset.tags).lower()`. -/
def searchableText (d : AlignmentDataset) : String :=
  lowerStr (joinSpace ([d.name, d.description] ++ d.tags))

/-- Text-query component of the search filter: a non-empty (already
lowercased and stripped) query must occur literally in the searchable text;
an empty query passes everything. -/
def textFilter (query_lower : String) (d : AlignmentDataset) : Bool :=
  if query_lower ≠ "" then strContains (searchableText d) query_lower else true

/-- The per-listing filter of `DatasetRegistry.search`, mirroring the three
`continue` branches of the loop body: quality threshold, case-insensitive
category equality, then the text query. -/
def passesFilters (query_lower : String) (category : Option String) (min_quality : ℚ)
    (listing : MarketplaceListing) : Bool :=
  let dataset := listing.dataset
  if dataset.quality_score < min_quality then false
  else if category.elim false (fun c => lowerStr dataset.category != lowerStr c) then false
  else textFilter query_lower dataset

/-- `DatasetRegistry.search`: lowercase and strip the query, keep the
listings (in insertion order) passing all filters, and stably sort the
survivors by descending quality score (`list.sort(key=..., reverse=True)`). -/
def DatasetRegistry.search (r : DatasetRegistry) (query : String)
    (category : Option String) (min_quality : ℚ) : List MarketplaceListing :=
  let query_lower := stripStr (lowerStr query)
  let results := (r.listings.map Prod.snd).filter
    (passesFilters query_lower category min_quality)
  results.mergeSort fun a b => decide (b.dataset.quality_score ≤ a.dataset.quality_score)

/-- Values a model-output record may hold (`dict[str, str | float | bool]`);
`num` covers Python `int` and `float`. -/
inductive OutputValue where
  | str (s : String)
  | num (x : ℚ)
  | bool (b : Bool)
deriving DecidableEq

/-- One model output record. -/
def ModelOutput : Type := List (String × OutputValue)

/-- A pluggable scoring function (`ScoringFunction` in `core.py`). -/
def ScoringFunction : Type := ModelOutput → ℚ

/-- Clamping into the unit interval: `max(0.0, min(1.0, x))`. -/
def clamp01 (x : ℚ) : ℚ := max 0 (min 1 x)

/-- The built-in `_default_scorer`: read the "score" field with default
`0.5`; a numeric value (Python `int`/`float`, including `bool`, a subclass
of `int` whose `float()` is 0 or 1) is clamped into `[0,1]`; any other
value yields `0.5`. -/
def defaultScorer (output : ModelOutput) : ℚ :=
  match (dictGet "score" output).getD (OutputValue.num (1/2)) with
  | .num x => clamp01 x
  | .bool b => clamp01 (if b then 1 else 0)
  | .str _ => 1/2

/-- The `EvaluationResult` pydantic model (`models.py`). -/
structure EvaluationResult where
  dataset_id : String
  model_name : String
  score : ℚ
  metrics : List (String × ℚ)
  evaluated_at : ℕ
deriving DecidableEq

/-- Failures `evaluate` can surface: the propagated `DatasetNotFoundError`,
or pydantic's `ValidationError` when the headline score falls outside the
`[0,1]` bounds declared on `EvaluationResult.score`. -/
inductive EvalError where
  | notFound (err : DatasetNotFoundError)
  | validationError
deriving DecidableEq

/-- Construction of an `EvaluationResult`, including pydantic's validation of
`score: float = Field(ge=0.0, le=1.0)`; the other fields carry no bounds. -/
def mkEvaluationResult (dataset_id model_name : String) (score : ℚ)
    (metrics : List (String × ℚ)) (evaluated_at : ℕ) :
    Except EvalError EvaluationResult :=
  if 0 ≤ score ∧ score ≤ 1 then
    .ok { dataset_id := dataset_id, model_name := model_name, score := score,
          metrics := metrics, evaluated_at := evaluated_at }
  else
    .error .validationError

/-- Python `min(scores)` for a non-empty list (`0.0` guard handled at the
call site reads `min(scores) if scores else 0.0`, folded in here). -/
def listMin : List ℚ → ℚ
  | [] => 0
  | x :: xs => xs.foldl min x

/-- Python `max(scores) if scores else 0.0`. -/
def listMax : List ℚ → ℚ
  | [] => 0
  | x :: xs => xs.foldl max x

/-- Score list built by `evaluate`: empty when there are no outputs,
otherwise the scoring function mapped over the outputs in order. -/
def scoresOf (scoring_fn : ScoringFunction) (model_outputs : List ModelOutput) : List ℚ :=
  if model_outputs.isEmpty then [] else model_outputs.map scoring_fn

/-- `sum(scores) / len(scores) if scores else 0.0`. -/
def aggregateScore (scores : List ℚ) : ℚ :=
  if scores.isEmpty then 0 else scores.sum / scores.length

/-- The metrics dict built by `evaluate`. -/
def metricsOf (scores : List ℚ) : List (String × ℚ) :=
  [("mean_score", aggregateScore scores),
   ("min_score", listMin scores),
   ("max_score", listMax scores),
   ("sample_count", (scores.length : ℚ))]

/-- Python `round(x, 4)`: round to four decimal places, ties to even
(banker's rounding), embedded over exact rationals. -/
def roundHalfToEven (x : ℚ) : ℤ :=
  let n := ⌊x⌋
  if x - n < 1/2 then n
  else if (1 : ℚ)/2 < x - n then n + 1
  else if n % 2 = 0 then n else n + 1

/-- Rounding to four decimal places (`round(aggregate_score, 4)`). -/
def round4 (x : ℚ) : ℚ := (roundHalfToEven (x * 10000) : ℚ) / 10000

/-- `self._results.setdefault(dataset_id, []).append(result)`. -/
def appendResult (dataset_id : String) (result : EvaluationResult)
    (results : List (String × List EvaluationResult)) :
    List (String × List EvaluationResult) :=
  match dictGet dataset_id results with
  | none => dictSet dataset_id [result] results
  | some prior => dictSet dataset_id (prior ++ [result]) results

/-- Mutable state of `EvaluationRunner`: the `self._results` history dict.
The registry and the scoring function the Python object holds are passed to
`evaluate` explicitly. -/
structure EvaluationRunner where
  results : List (String × List EvaluationResult)
deriving DecidableEq

/-- The freshly constructed runner (`EvaluationRunner.__init__`). -/
def EvaluationRunner.init : EvaluationRunner := { results := [] }

/-- `EvaluationRunner.evaluate`: validate the dataset exists (propagating the
registry's `DatasetNotFoundError` unchanged), score every output, aggregate,
build the result (pydantic-validating the rounded headline score), and append
it to the dataset's history. The first component of the returned pair is the
runner state after the call; on any error it is the unchanged input state. -/
def EvaluationRunner.evaluate (runner : EvaluationRunner) (registry : DatasetRegistry)
    (scoring_fn : ScoringFunction) (dataset_id : String)
    (model_outputs : List ModelOutput) (model_name : String) (now : ℕ) :
    EvaluationRunner × Except EvalError EvaluationResult :=
  match registry.get dataset_id with
  | .error err => (runner, .error (.notFound err))
  | .ok _ =>
    let scores := scoresOf scoring_fn model_outputs
    match mkEvaluationResult dataset_id model_name (round4 (aggregateScore scores))
        (metricsOf scores) now with
    | .error e => (runner, .error e)
    | .ok result =>
        ({ results := appendResult dataset_id result runner.results }, .ok result)

/-- `EvaluationRunner.get_results`: the history list for the id, or `[]`. -/
def EvaluationRunner.get_results (runner : EvaluationRunner) (dataset_id : String) :
    List EvaluationResult :=
  (dictGet dataset_id runner.results).getD []

/-- Text filter as the specification sentence words it: the lowercased plain
concatenation (no separator) of the dataset's name, description, and all tags
must contain the trimmed, lowercased query as a literal substring, an empty
query matching everything. Stated from the claim's words for comparison with
the code's space-joined `searchableText`. -/
def claimTextFilter (query : String) (d : AlignmentDataset) : Bool :=
  let q := stripStr (lowerStr query)
  q == "" || strContains (lowerStr (String.join ([d.name, d.description] ++ d.tags))) q

/-- A sample dataset mirroring the repository's test fixture. -/
def sampleDataset : AlignmentDataset :=
  { dataset_id := "ds-001", name := "Safety Prompts v1",
    description := "A dataset of safety-related prompts.", category := "safety",
    size := 500, format := "jsonl", license := "CC-BY-4.0",
    tags := ["safety", "harmlessness"], download_url := none, quality_score := 85/100 }

/-- A registry holding only `sampleDataset`. -/
def sampleRegistry : DatasetRegistry := DatasetRegistry.init.register sampleDataset

/-- Dataset whose name carries a regex metacharacter, for the literal-match
checks of `search`. -/
def dotDataset : AlignmentDataset :=
  { dataset_id := "dot", name := "a.b", description := "d", category := "misc",
    size := 0, format := "json", license := "MIT", tags := [],
    download_url := none, quality_score := 1 }

/-- The listing `register` creates for `dotDataset`. -/
def dotListing : MarketplaceListing :=
  { dataset := dotDataset, downloads := 0, rating := 0, reviews := 0 }

/-- A registry holding only `dotDataset`. -/
def dotRegistry : DatasetRegistry := DatasetRegistry.init.register dotDataset

/-- Dataset whose name and description concatenate to "abcd" without a
separator but to "ab cd" with the space join the code performs. -/
def concatDataset : AlignmentDataset :=
  { dataset_id := "cx", name := "ab", description := "cd", category := "misc",
    size := 0, format := "json", license := "MIT", tags := [],
    download_url := none, quality_score := 1 }

/-- The listing `register` creates for `concatDataset`. -/
def concatListing : MarketplaceListing :=
  { dataset := concatDataset, downloads := 0, rating := 0, reviews := 0 }

/-- A registry holding only `concatDataset`. -/
def concatRegistry : DatasetRegistry := DatasetRegistry.init.register concatDataset

/-- A custom scoring function returning the constant 2.0, outside `[0,1]`. -/
def constTwoScorer : ScoringFunction := fun _ => 2

/-- A custom scoring function passing the raw "score" field through without
any clamping (0 when absent or non-numeric). -/
def rawScoreScorer : ScoringFunction := fun output =>
  match dictGet "score" output with
  | some (.num x) => x
  | _ => 0

/-- The result record a successful empty-batch evaluation of `sampleDataset`
under model name "m" at time 0 produces. -/
def emptyEvalResult : EvaluationResult :=
  { dataset_id := "ds-001", model_name := "m", score := 0,
    metrics := metricsOf [], evaluated_at := 0 }

/-- Registry states reachable from `DatasetRegistry.__init__` by the two
mutating operations; `get` and `search` take no state transition, so the
reachable set is closed under them trivially. -/
inductive Reachable : DatasetRegistry → Prop
  | init : Reachable DatasetRegistry.init
  | register (r : DatasetRegistry) (d : AlignmentDataset) :
      Reachable r → Reachable (r.register d)
  | incr (r : DatasetRegistry) (dataset_id : String) :
      Reachable r → Reachable (r.increment_downloads dataset_id)

/-- Coherence of the two registry dicts: a dataset record exists under an
identifier exactly when a listing does, and the listing wraps exactly the
stored dataset record. -/
def coherent (r : DatasetRegistry) : Prop :=
  (∀ id : String, (dictGet id r.datasets).isSome ↔ (dictGet id r.listings).isSome) ∧
  (∀ (id : String) (d : AlignmentDataset) (l : MarketplaceListing),
    dictGet id r.datasets = some d → dictGet id r.listings = some l → l.dataset = d)

/-! ### Helper lemmas about the dict embedding -/

theorem dictGet_dictSet_self {α : Type} (k : String) (v : α) (m : List (String × α)) :
    dictGet k (dictSet k v m) = some v := by
  induction m with
  | nil => simp [dictGet, dictSet]
  | cons p rest ih =>
      rcases p with ⟨k', v'⟩
      by_cases h : k' = k <;> simp [dictGet, dictSet, h, ih]

theorem dictGet_dictSet_ne {α : Type} (k k' : String) (v : α) (m : List (String × α))
    (h : k ≠ k') : dictGet k' (dictSet k v m) = dictGet k' m := by
  induction m with
  | nil => simp [dictGet, dictSet, h]
  | cons p rest ih =>
      rcases p with ⟨k'', v''⟩
      by_cases h2 : k'' = k
      · subst h2
        simp [dictGet, dictSet, h]
      · by_cases h3 : k'' = k' <;> simp [dictGet, dictSet, h2, h3, Ne.symm h, ih]

/-! ### Claim theorems -/

/-- C2: `register` always succeeds; a first registration creates a listing
with `downloads = 0`, `rating = 0`, `reviews = 0`, and a re-registration
replaces only the dataset payload while carrying the existing downloads,
rating, and reviews over exactly. -/
theorem register_creates_or_merges_listing (r : DatasetRegistry) (d : AlignmentDataset) :
    dictGet d.dataset_id (r.register d).listings =
      some (match dictGet d.dataset_id r.listings with
            | none => { dataset := d, downloads := 0, rating := 0, reviews := 0 }
            | some l => { dataset := d, downloads := l.downloads, rating := l.rating,
                          reviews := l.reviews }) := by
  unfold DatasetRegistry.register
  rcases h : dictGet d.dataset_id r.listings with _ | l <;>
    simp [h, dictGet_dictSet_self]

/-- C9: `get` after `register` is a round-trip: in any prior registry state,
`get (d.dataset_id)` right after `register d` returns exactly `d`, so the
most recent registration under an identifier wins. -/
theorem register_get_roundtrip (r : DatasetRegistry) (d : AlignmentDataset) :
    (r.register d).get d.dataset_id = .ok d := by
  unfold DatasetRegistry.register DatasetRegistry.get
  rcases h : dictGet d.dataset_id r.listings with _ | l <;>
    simp [h, dictGet_dictSet_self]

/-- C1: evaluating against an unregistered dataset id propagates the
registry's `DatasetNotFoundError` unchanged and leaves the whole evaluation
history untouched (no result is appended under any dataset id). -/
theorem evaluate_unregistered_raises_notFound (runner : EvaluationRunner)
    (registry : DatasetRegistry) (scoring_fn : ScoringFunction) (dataset_id : String)
    (model_outputs : List ModelOutput) (model_name : String) (now : ℕ)
    (err : DatasetNotFoundError)
    (h : registry.get dataset_id = .error err) :
    runner.evaluate registry scoring_fn dataset_id model_outputs model_name now
        = (runner, .error (.notFound err)) ∧
    ∀ id : String,
      (runner.evaluate registry scoring_fn dataset_id model_outputs model_name now).1.get_results id
        = runner.get_results id := by
  unfold EvaluationRunner.evaluate
  rw [h]
  exact ⟨rfl, fun _ => rfl⟩

/-- C1 witness: a fresh registry knows no dataset, so evaluating `"missing"`
propagates `DatasetNotFoundError "missing"` with the runner state unchanged. -/
theorem evaluate_unregistered_raises_notFound_witness :
    EvaluationRunner.init.evaluate DatasetRegistry.init defaultScorer "missing" [] "m" 0
      = (EvaluationRunner.init, .error (.notFound ⟨"missing"⟩)) :=
  (evaluate_unregistered_raises_notFound EvaluationRunner.init DatasetRegistry.init
    defaultScorer "missing" [] "m" 0 ⟨"missing"⟩ rfl).1

/-- C6: the default scorer clamps a numeric "score" field into `[0,1]`
(booleans counting as 0/1, since Python `bool` is an `int`), and returns
exactly `1/2` when the field is absent or non-numeric; in particular
`0.75 ↦ 0.75`, `5 ↦ 1`, `-3 ↦ 0`, a missing field `↦ 1/2`, a string
`↦ 1/2`, and `True ↦ 1`. -/
theorem default_scorer_spec :
    (∀ (out : ModelOutput) (x : ℚ), dictGet "score" out = some (.num x) →
        defaultScorer out = max 0 (min 1 x)) ∧
    (∀ (out : ModelOutput) (b : Bool), dictGet "score" out = some (.bool b) →
        defaultScorer out = if b then 1 else 0) ∧
    (∀ (out : ModelOutput) (s : String), dictGet "score" out = some (.str s) →
        defaultScorer out = 1/2) ∧
    (∀ out : ModelOutput, dictGet "score" out = none → defaultScorer out = 1/2) ∧
    defaultScorer [("score", .num (3/4))] = 3/4 ∧
    defaultScorer [("score", .num 5)] = 1 ∧
    defaultScorer [("score", .num (-3))] = 0 ∧
    defaultScorer [("text", .str "x")] = 1/2 ∧
    defaultScorer [("score", .str "high")] = 1/2 ∧
    defaultScorer [("score", .bool true)] = 1 := by
  refine ⟨?_, ?_, ?_, ?_, ?_, ?_, ?_, ?_, ?_, ?_⟩
  · intro out x h
    simp [defaultScorer, h, clamp01]
  · intro out b h
    rcases b <;> norm_num [defaultScorer, h, clamp01, min_def, max_def]
  · intro out s h
    simp [defaultScorer, h]
  · intro out h
    norm_num [defaultScorer, h, clamp01, min_def, max_def]
  · simp [defaultScorer, dictGet]
    norm_num [clamp01, min_def, max_def]
  · simp [defaultScorer, dictGet]
    norm_num [clamp01, min_def, max_def]
  · simp [defaultScorer, dictGet]
    norm_num [clamp01, min_def, max_def]
  · simp [defaultScorer, dictGet]
    norm_num [clamp01, min_def, max_def]
  · simp [defaultScorer, dictGet]
  · simp [defaultScorer, dictGet]
    norm_num [clamp01, min_def, max_def]

/-- C6 witness: the numeric clamping clause applied to a concrete record. -/
theorem default_scorer_spec_witness :
    defaultScorer [("score", OutputValue.num 2)] = max 0 (min 1 2) :=
  default_scorer_spec.1 [("score", OutputValue.num 2)] 2 rfl

/-! ### Search characterization helpers -/

theorem textFilter_eq_true_iff (q : String) (d : AlignmentDataset) :
    textFilter q d = true ↔ (q = "" ∨ strContains (searchableText d) q = true) := by
  unfold textFilter
  by_cases h : q = "" <;> simp [h]

theorem passesFilters_eq_true_iff (q : String) (c : Option String) (m : ℚ)
    (l : MarketplaceListing) :
    passesFilters q c m l = true ↔
      (m ≤ l.dataset.quality_score ∧
       (∀ cat, c = some cat → lowerStr l.dataset.category = lowerStr cat) ∧
       textFilter q l.dataset = true) := by
  unfold passesFilters
  by_cases hq : l.dataset.quality_score < m
  · simp [hq, not_le.mpr hq]
  · rcases c with _ | cat
    · simp [hq, not_lt.mp hq]
    · by_cases hc : lowerStr l.dataset.category = lowerStr cat
      · simp [hq, not_lt.mp hq, hc]
      · simp [hq, hc]

theorem mem_search_iff (r : DatasetRegistry) (query : String) (category : Option String)
    (min_quality : ℚ) (l : MarketplaceListing) :
    l ∈ r.search query category min_quality ↔
      (l ∈ r.listings.map Prod.snd ∧
       passesFilters (stripStr (lowerStr query)) category min_quality l = true) := by
  simp only [DatasetRegistry.search, List.mem_mergeSort, List.mem_filter]

theorem search_sorted_descending (r : DatasetRegistry) (query : String)
    (category : Option String) (min_quality : ℚ) :
    List.Pairwise (fun a b => b.dataset.quality_score ≤ a.dataset.quality_score)
      (r.search query category min_quality) := by
  unfold DatasetRegistry.search
  refine List.Pairwise.imp (fun h => of_decide_eq_true h) ?_
  exact List.sorted_mergeSort
    (fun a b c hab hbc => by
      simp only [decide_eq_true_eq] at *
      exact le_trans hbc hab)
    (fun a b => by
      simp only [Bool.or_eq_true, decide_eq_true_eq]
      exact le_total _ _)
    _

/-- C5: `search` returns exactly the stored listings meeting the quality
threshold (boundary included), matching the optional category filter
case-insensitively by exact equality, and passing the text filter, all
conjunctively; the returned sequence is sorted by non-increasing quality
score, and an empty result is an ordinary value, not an error. -/
theorem search_conjunctive_filters_sorted (r : DatasetRegistry) (query : String)
    (category : Option String) (min_quality : ℚ) :
    (∀ l : MarketplaceListing,
      l ∈ r.search query category min_quality ↔
        (l ∈ r.listings.map Prod.snd ∧
         min_quality ≤ l.dataset.quality_score ∧
         (∀ cat, category = some cat → lowerStr l.dataset.category = lowerStr cat) ∧
         textFilter (stripStr (lowerStr query)) l.dataset = true)) ∧
    List.Pairwise (fun a b => b.dataset.quality_score ≤ a.dataset.quality_score)
      (r.search query category min_quality) := by
  refine ⟨fun l => ?_, search_sorted_descending r query category min_quality⟩
  rw [mem_search_iff, passesFilters_eq_true_iff]

/-- C4 counterexample: with a dataset named "ab" and described "cd", the query
"bc" is a substring of the plain concatenation "abcd", so the claim's reading
includes the listing (its quality passes the threshold and the claim's text
filter accepts it); yet the code joins the fields with single spaces ("ab cd")
and `search` returns nothing. -/
theorem search_plain_concat_reading_false :
    claimTextFilter "bc" concatDataset = true ∧
    (∀ p ∈ concatRegistry.listings, 0 ≤ p.2.dataset.quality_score) ∧
    concatListing ∈ concatRegistry.listings.map Prod.snd ∧
    concatRegistry.search "bc" none 0 = [] := by
  have hl : concatRegistry.listings = [("cx", concatListing)] := rfl
  refine ⟨by decide, ?_, ?_, ?_⟩
  · intro p hp
    rw [hl] at hp
    simp at hp
    subst hp
    norm_num [concatListing, concatDataset]
  · rw [hl]
    simp
  · have hp : passesFilters (stripStr (lowerStr "bc")) none 0 concatListing = false := by
      rw [Bool.eq_false_iff]
      intro hcontra
      rw [passesFilters_eq_true_iff, textFilter_eq_true_iff] at hcontra
      rcases hcontra.2.2 with he | hc
      · exact absurd he (by decide)
      · exact absurd hc (by decide)
    show concatRegistry.search "bc" none 0 = []
    unfold DatasetRegistry.search
    rw [hl]
    simp [hp, List.mergeSort_nil]

/-- C4 amended: a listing is included by `search` under the text filter iff
the trimmed, lowercased query is empty or occurs as a literal substring of
the lowercased space-separated concatenation of the dataset's name,
description, and all tags (the fields are joined with single spaces, not
concatenated directly); regex metacharacters are literal, so a query ".*"
matches only text literally containing ".*". -/
theorem search_text_query_space_joined_literal :
    (∀ (r : DatasetRegistry) (query : String),
      (∀ p ∈ r.listings, 0 ≤ p.2.dataset.quality_score) →
      ∀ l : MarketplaceListing,
        l ∈ r.search query none 0 ↔
          (l ∈ r.listings.map Prod.snd ∧
           (stripStr (lowerStr query) = "" ∨
             strContains (searchableText l.dataset) (stripStr (lowerStr query)) = true))) ∧
    dotRegistry.search ".*" none 0 = [] ∧
    dotRegistry.search ".b" none 0 = [dotListing] := by
  have hl : dotRegistry.listings = [("dot", dotListing)] := rfl
  refine ⟨?_, ?_, ?_⟩
  · intro r query hq l
    rw [mem_search_iff, passesFilters_eq_true_iff, textFilter_eq_true_iff]
    constructor
    · rintro ⟨hmem, -, -, htext⟩
      exact ⟨hmem, htext⟩
    · rintro ⟨hmem, htext⟩
      refine ⟨hmem, ?_, ?_, htext⟩
      · rcases List.mem_map.mp hmem with ⟨p, hp, rfl⟩
        exact hq p hp
      · intro cat hcat
        cases hcat
  · have hp : passesFilters (stripStr (lowerStr ".*")) none 0 dotListing = false := by
      rw [Bool.eq_false_iff]
      intro hcontra
      rw [passesFilters_eq_true_iff, textFilter_eq_true_iff] at hcontra
      rcases hcontra.2.2 with he | hc
      · exact absurd he (by decide)
      · exact absurd hc (by decide)
    show dotRegistry.search ".*" none 0 = []
    unfold DatasetRegistry.search
    rw [hl]
    simp [hp, List.mergeSort_nil]
  · have hp : passesFilters (stripStr (lowerStr ".b")) none 0 dotListing = true := by
      rw [passesFilters_eq_true_iff, textFilter_eq_true_iff]
      refine ⟨?_, ?_, Or.inr (by decide)⟩
      · show (0 : ℚ) ≤ dotListing.dataset.quality_score
        norm_num [dotListing, dotDataset]
      · intro cat hcat
        cases hcat
    show dotRegistry.search ".b" none 0 = [dotListing]
    unfold DatasetRegistry.search
    rw [hl]
    simp [hp, List.mergeSort_singleton]

/-- C4 witness: the quantified clause instantiated at `dotRegistry` with the
query "a", whose searchable text "a.b d" contains "a". -/
theorem search_text_query_space_joined_literal_witness :
    dotListing ∈ dotRegistry.search "a" none 0 ↔
      (dotListing ∈ dotRegistry.listings.map Prod.snd ∧
       (stripStr (lowerStr "a") = "" ∨
         strContains (searchableText dotListing.dataset) (stripStr (lowerStr "a")) = true)) :=
  search_text_query_space_joined_literal.1 dotRegistry "a"
    (by
      intro p hp
      have hl : dotRegistry.listings = [("dot", dotListing)] := rfl
      rw [hl] at hp
      simp at hp
      subst hp
      norm_num [dotListing, dotDataset])
    dotListing

/-- Closed form of a successful `evaluate` call: when the dataset exists and
the rounded aggregate mean passes the result model's bounds, the call appends
exactly one result record, fully determined by its inputs. -/
theorem evaluate_ok_helper (runner : EvaluationRunner) (registry : DatasetRegistry)
    (scoring_fn : ScoringFunction) (dataset_id : String) (model_outputs : List ModelOutput)
    (model_name : String) (now : ℕ) (d : AlignmentDataset)
    (hreg : registry.get dataset_id = .ok d)
    (h0 : 0 ≤ round4 (aggregateScore (scoresOf scoring_fn model_outputs)))
    (h1 : round4 (aggregateScore (scoresOf scoring_fn model_outputs)) ≤ 1) :
    runner.evaluate registry scoring_fn dataset_id model_outputs model_name now
      = ({ results := appendResult dataset_id
             { dataset_id := dataset_id, model_name := model_name,
               score := round4 (aggregateScore (scoresOf scoring_fn model_outputs)),
               metrics := metricsOf (scoresOf scoring_fn model_outputs),
               evaluated_at := now } runner.results },
         .ok { dataset_id := dataset_id, model_name := model_name,
               score := round4 (aggregateScore (scoresOf scoring_fn model_outputs)),
               metrics := metricsOf (scoresOf scoring_fn model_outputs),
               evaluated_at := now }) := by
  have hmk : mkEvaluationResult dataset_id model_name
      (round4 (aggregateScore (scoresOf scoring_fn model_outputs)))
      (metricsOf (scoresOf scoring_fn model_outputs)) now
      = .ok { dataset_id := dataset_id, model_name := model_name,
              score := round4 (aggregateScore (scoresOf scoring_fn model_outputs)),
              metrics := metricsOf (scoresOf scoring_fn model_outputs),
              evaluated_at := now } := by
    unfold mkEvaluationResult
    rw [if_pos ⟨h0, h1⟩]
  unfold EvaluationRunner.evaluate
  simp only [hreg, hmk]

/-- C3 counterexample: a configured scoring function returning the real value
2.0 for each output makes `evaluate` fail with pydantic's validation error on
`EvaluationResult.score` (declared `ge=0.0, le=1.0`) instead of normalizing
the score and returning a result; the runner state is returned unchanged, so
the history of the evaluated dataset id stays empty. -/
theorem evaluate_out_of_range_score_raises :
    EvaluationRunner.init.evaluate sampleRegistry constTwoScorer "ds-001"
      [[("text", OutputValue.str "x")]] "m" 0
      = (EvaluationRunner.init, .error .validationError) ∧
    (EvaluationRunner.init.evaluate sampleRegistry constTwoScorer "ds-001"
      [[("text", OutputValue.str "x")]] "m" 0).1.get_results "ds-001" = [] := by
  have hget : sampleRegistry.get "ds-001" = .ok sampleDataset := rfl
  have hs : scoresOf constTwoScorer [[("text", OutputValue.str "x")]] = [2] := rfl
  have ha : aggregateScore [(2 : ℚ)] = 2 := by simp [aggregateScore]
  have hr : round4 2 = 2 := by norm_num [round4, roundHalfToEven]
  have hmk : mkEvaluationResult "ds-001" "m" 2 (metricsOf [(2 : ℚ)]) 0
      = .error .validationError := by
    norm_num [mkEvaluationResult]
  have hmain : EvaluationRunner.init.evaluate sampleRegistry constTwoScorer "ds-001"
      [[("text", OutputValue.str "x")]] "m" 0
      = (EvaluationRunner.init, .error .validationError) := by
    unfold EvaluationRunner.evaluate
    simp only [hget, hs, ha, hr, hmk]
  refine ⟨hmain, ?_⟩
  rw [hmain]
  rfl

/-- C3 amended: `evaluate` never rejects or normalizes out-of-range
per-output scores during scoring or aggregation, but the result model
validates the rounded aggregate mean against `[0,1]`: a result is returned
precisely when that rounded mean is in range; in range, exactly the
determined result is appended and returned, and out of range, `evaluate`
raises pydantic's validation error with every dataset's history (the runner
state) left unchanged. -/
theorem evaluate_returns_result_iff_mean_in_range (runner : EvaluationRunner)
    (registry : DatasetRegistry) (scoring_fn : ScoringFunction) (dataset_id : String)
    (model_outputs : List ModelOutput) (model_name : String) (now : ℕ)
    (d : AlignmentDataset) (hreg : registry.get dataset_id = .ok d) :
    ((∃ result : EvaluationResult,
        (runner.evaluate registry scoring_fn dataset_id model_outputs model_name now).2
          = .ok result) ↔
      (0 ≤ round4 (aggregateScore (scoresOf scoring_fn model_outputs)) ∧
       round4 (aggregateScore (scoresOf scoring_fn model_outputs)) ≤ 1)) ∧
    ((0 ≤ round4 (aggregateScore (scoresOf scoring_fn model_outputs)) ∧
       round4 (aggregateScore (scoresOf scoring_fn model_outputs)) ≤ 1) →
      runner.evaluate registry scoring_fn dataset_id model_outputs model_name now
        = ({ results := appendResult dataset_id
               { dataset_id := dataset_id, model_name := model_name,
                 score := round4 (aggregateScore (scoresOf scoring_fn model_outputs)),
                 metrics := metricsOf (scoresOf scoring_fn model_outputs),
                 evaluated_at := now } runner.results },
           .ok { dataset_id := dataset_id, model_name := model_name,
                 score := round4 (aggregateScore (scoresOf scoring_fn model_outputs)),
                 metrics := metricsOf (scoresOf scoring_fn model_outputs),
                 evaluated_at := now })) ∧
    (¬(0 ≤ round4 (aggregateScore (scoresOf scoring_fn model_outputs)) ∧
       round4 (aggregateScore (scoresOf scoring_fn model_outputs)) ≤ 1) →
      runner.evaluate registry scoring_fn dataset_id model_outputs model_name now
        = (runner, .error .validationError) ∧
      ∀ id : String,
        (runner.evaluate registry scoring_fn dataset_id model_outputs
            model_name now).1.get_results id
          = runner.get_results id) := by
  have hok := evaluate_ok_helper runner registry scoring_fn dataset_id model_outputs
    model_name now d hreg
  have herr : ¬(0 ≤ round4 (aggregateScore (scoresOf scoring_fn model_outputs)) ∧
      round4 (aggregateScore (scoresOf scoring_fn model_outputs)) ≤ 1) →
      runner.evaluate registry scoring_fn dataset_id model_outputs model_name now
        = (runner, .error .validationError) := by
    intro h
    have hmk : mkEvaluationResult dataset_id model_name
        (round4 (aggregateScore (scoresOf scoring_fn model_outputs)))
        (metricsOf (scoresOf scoring_fn model_outputs)) now
        = .error .validationError := by
      unfold mkEvaluationResult
      rw [if_neg h]
    unfold EvaluationRunner.evaluate
    simp only [hreg, hmk]
  refine ⟨⟨?_, ?_⟩, ?_, ?_⟩
  · rintro ⟨result, hres⟩
    by_contra h
    rw [herr h] at hres
    exact Except.noConfusion hres
  · intro h
    exact ⟨_, by rw [hok h.1 h.2]⟩
  · intro h
    exact hok h.1 h.2
  · intro h
    refine ⟨herr h, fun id => ?_⟩
    rw [herr h]

/-- C3 witness: on the sample registry with a pass-through scorer, the
individual raw scores 3/2 and -1/2 lie outside `[0,1]` yet the whole
equivalence holds at this concrete input (their rounded mean 1/2 is in
range, so a result is returned). -/
theorem evaluate_returns_result_iff_mean_in_range_witness :
    ((∃ result : EvaluationResult,
        (EvaluationRunner.init.evaluate sampleRegistry rawScoreScorer "ds-001"
          [[("score", OutputValue.num (3/2))], [("score", OutputValue.num (-1/2))]]
          "m" 0).2 = .ok result) ↔
      (0 ≤ round4 (aggregateScore (scoresOf rawScoreScorer
          [[("score", OutputValue.num (3/2))], [("score", OutputValue.num (-1/2))]])) ∧
       round4 (aggregateScore (scoresOf rawScoreScorer
          [[("score", OutputValue.num (3/2))], [("score", OutputValue.num (-1/2))]])) ≤ 1)) ∧
    ((0 ≤ round4 (aggregateScore (scoresOf rawScoreScorer
          [[("score", OutputValue.num (3/2))], [("score", OutputValue.num (-1/2))]])) ∧
       round4 (aggregateScore (scoresOf rawScoreScorer
          [[("score", OutputValue.num (3/2))], [("score", OutputValue.num (-1/2))]])) ≤ 1) →
      EvaluationRunner.init.evaluate sampleRegistry rawScoreScorer "ds-001"
          [[("score", OutputValue.num (3/2))], [("score", OutputValue.num (-1/2))]] "m" 0
        = ({ results := appendResult "ds-001"
               { dataset_id := "ds-001", model_name := "m",
                 score := round4 (aggregateScore (scoresOf rawScoreScorer
                   [[("score", OutputValue.num (3/2))], [("score", OutputValue.num (-1/2))]])),
                 metrics := metricsOf (scoresOf rawScoreScorer
                   [[("score", OutputValue.num (3/2))], [("score", OutputValue.num (-1/2))]]),
                 evaluated_at := 0 } EvaluationRunner.init.results },
           .ok { dataset_id := "ds-001", model_name := "m",
                 score := round4 (aggregateScore (scoresOf rawScoreScorer
                   [[("score", OutputValue.num (3/2))], [("score", OutputValue.num (-1/2))]])),
                 metrics := metricsOf (scoresOf rawScoreScorer
                   [[("score", OutputValue.num (3/2))], [("score", OutputValue.num (-1/2))]]),
                 evaluated_at := 0 })) ∧
    (¬(0 ≤ round4 (aggregateScore (scoresOf rawScoreScorer
          [[("score", OutputValue.num (3/2))], [("score", OutputValue.num (-1/2))]])) ∧
       round4 (aggregateScore (scoresOf rawScoreScorer
          [[("score", OutputValue.num (3/2))], [("score", OutputValue.num (-1/2))]])) ≤ 1) →
      EvaluationRunner.init.evaluate sampleRegistry rawScoreScorer "ds-001"
          [[("score", OutputValue.num (3/2))], [("score", OutputValue.num (-1/2))]] "m" 0
        = (EvaluationRunner.init, .error .validationError) ∧
      ∀ id : String,
        (EvaluationRunner.init.evaluate sampleRegistry rawScoreScorer "ds-001"
            [[("score", OutputValue.num (3/2))], [("score", OutputValue.num (-1/2))]]
            "m" 0).1.get_results id
          = EvaluationRunner.init.get_results id) :=
  evaluate_returns_result_iff_mean_in_range EvaluationRunner.init sampleRegistry
    rawScoreScorer "ds-001"
    [[("score", OutputValue.num (3/2))], [("score", OutputValue.num (-1/2))]] "m" 0
    sampleDataset rfl

/-- C7: on a registered dataset id, `evaluate` with an empty output batch
returns (without any error) a result whose score is 0, with min_score 0,
max_score 0, and sample_count 0 among its metrics. -/
theorem evaluate_empty_outputs_zero (runner : EvaluationRunner)
    (registry : DatasetRegistry) (scoring_fn : ScoringFunction)
    (dataset_id model_name : String) (now : ℕ)
    (d : AlignmentDataset) (h : registry.get dataset_id = .ok d) :
    (runner.evaluate registry scoring_fn dataset_id [] model_name now).2
      = .ok { dataset_id := dataset_id, model_name := model_name, score := 0,
              metrics := metricsOf [], evaluated_at := now } ∧
    dictGet "min_score" (metricsOf ([] : List ℚ)) = some 0 ∧
    dictGet "max_score" (metricsOf ([] : List ℚ)) = some 0 ∧
    dictGet "sample_count" (metricsOf ([] : List ℚ)) = some 0 := by
  have hs : scoresOf scoring_fn [] = [] := rfl
  have hr : round4 (aggregateScore []) = 0 := by
    norm_num [aggregateScore, round4, roundHalfToEven, List.isEmpty]
  refine ⟨?_, ?_, ?_, ?_⟩
  · have hmain := evaluate_ok_helper runner registry scoring_fn dataset_id [] model_name
      now d h (by rw [hs, hr]) (by rw [hs, hr]; norm_num)
    rw [hmain]
    rw [hs, hr]
  · simp [metricsOf, dictGet, listMin]
  · simp [metricsOf, dictGet, listMax]
  · simp [metricsOf, dictGet]

/-- C7 witness: the fact instantiated on the sample registry. -/
theorem evaluate_empty_outputs_zero_witness :
    (EvaluationRunner.init.evaluate sampleRegistry defaultScorer "ds-001" [] "m" 0).2
      = .ok { dataset_id := "ds-001", model_name := "m", score := 0,
              metrics := metricsOf [], evaluated_at := 0 } :=
  (evaluate_empty_outputs_zero EvaluationRunner.init sampleRegistry defaultScorer
    "ds-001" "m" 0 sampleDataset rfl).1

/-! ### History bookkeeping helpers -/

theorem mkEvaluationResult_ok_fields {a b : String} {c : ℚ} {m : List (String × ℚ)}
    {e : ℕ} {res : EvaluationResult} (h : mkEvaluationResult a b c m e = .ok res) :
    res.dataset_id = a ∧ res.model_name = b := by
  unfold mkEvaluationResult at h
  split at h
  · cases h
    exact ⟨rfl, rfl⟩
  · exact Except.noConfusion h

theorem get_results_append_self (runner : EvaluationRunner) (dataset_id : String)
    (res : EvaluationResult) :
    (EvaluationRunner.mk (appendResult dataset_id res runner.results)).get_results dataset_id
      = runner.get_results dataset_id ++ [res] := by
  unfold EvaluationRunner.get_results appendResult
  rcases hx : dictGet dataset_id runner.results with _ | prior <;>
    simp [hx, dictGet_dictSet_self]

theorem get_results_append_other (runner : EvaluationRunner) (dataset_id other : String)
    (res : EvaluationResult) (h : other ≠ dataset_id) :
    (EvaluationRunner.mk (appendResult dataset_id res runner.results)).get_results other
      = runner.get_results other := by
  unfold EvaluationRunner.get_results appendResult
  rcases hx : dictGet dataset_id runner.results with _ | prior <;>
    simp [dictGet_dictSet_ne dataset_id other _ _ (Ne.symm h)]

/-- C8: every successful `evaluate` appends exactly one result to the target
dataset's history (created on first use) and leaves every other dataset's
history untouched; the appended result carries the call's dataset id and
model name, so repeated calls accumulate their results in call order; and
`get_results` on a dataset never evaluated returns the empty sequence
without error. -/
theorem evaluate_appends_exactly_one :
    (∀ (runner runner' : EvaluationRunner) (registry : DatasetRegistry)
        (scoring_fn : ScoringFunction) (dataset_id : String)
        (model_outputs : List ModelOutput) (model_name : String) (now : ℕ)
        (result : EvaluationResult),
      runner.evaluate registry scoring_fn dataset_id model_outputs model_name now
          = (runner', .ok result) →
      (runner'.get_results dataset_id = runner.get_results dataset_id ++ [result] ∧
       (∀ other : String, other ≠ dataset_id →
         runner'.get_results other = runner.get_results other) ∧
       result.dataset_id = dataset_id ∧ result.model_name = model_name)) ∧
    (∀ dataset_id : String, EvaluationRunner.init.get_results dataset_id = []) := by
  constructor
  · intro runner runner' registry scoring_fn dataset_id model_outputs model_name now result h
    unfold EvaluationRunner.evaluate at h
    rcases hget : registry.get dataset_id with err | dd
    · simp only [hget] at h
      simp at h
    · simp only [hget] at h
      rcases hmk : mkEvaluationResult dataset_id model_name
          (round4 (aggregateScore (scoresOf scoring_fn model_outputs)))
          (metricsOf (scoresOf scoring_fn model_outputs)) now with e | res
      · simp only [hmk] at h
        simp at h
      · simp only [hmk] at h
        rw [Prod.mk.injEq] at h
        obtain ⟨hrun, hres⟩ := h
        injection hres with hres
        subst hres
        subst hrun
        obtain ⟨hid, hname⟩ := mkEvaluationResult_ok_fields hmk
        exact ⟨get_results_append_self runner dataset_id res,
               fun other hother => get_results_append_other runner dataset_id other res hother,
               hid, hname⟩
  · intro dataset_id
    rfl

/-- C8 witness: a concrete empty-batch evaluation on the sample registry
appends exactly its result to the previously empty history of "ds-001". -/
theorem evaluate_appends_exactly_one_witness :
    (EvaluationRunner.mk [("ds-001", [emptyEvalResult])]).get_results "ds-001"
      = EvaluationRunner.init.get_results "ds-001" ++ [emptyEvalResult] :=
  (evaluate_appends_exactly_one.1 EvaluationRunner.init
    (EvaluationRunner.mk [("ds-001", [emptyEvalResult])]) sampleRegistry defaultScorer
    "ds-001" [] "m" 0 emptyEvalResult
    (by
      have hs : scoresOf defaultScorer [] = [] := rfl
      have hr : round4 (aggregateScore []) = 0 := by
        norm_num [aggregateScore, round4, roundHalfToEven, List.isEmpty]
      have hmain := evaluate_ok_helper EvaluationRunner.init sampleRegistry defaultScorer
        "ds-001" [] "m" 0 sampleDataset rfl (by rw [hs, hr]) (by rw [hs, hr]; norm_num)
      rw [hmain, hs, hr]
      rfl)).1

/-- C10: every registry state reachable by the mutating operations keeps the
dataset map and the listing map coherent: the same identifiers are present in
both, and each listing wraps exactly the dataset record stored under its key;
`get` and `search` read the state without modifying it. -/
theorem reachable_registry_coherent (r : DatasetRegistry) (h : Reachable r) :
    coherent r := by
  induction h with
  | init =>
      refine ⟨fun id => ?_, fun id d l hd hl => ?_⟩
      · simp [DatasetRegistry.init, dictGet]
      · simp [DatasetRegistry.init, dictGet] at hd
  | register r d _ ih =>
      obtain ⟨ih1, ih2⟩ := ih
      have main : ∀ l0 : MarketplaceListing, l0.dataset = d →
          coherent { datasets := dictSet d.dataset_id d r.datasets,
                     listings := dictSet d.dataset_id l0 r.listings } := by
        intro l0 hl0
        refine ⟨fun id => ?_, fun id dd ll hd hl => ?_⟩
        · dsimp only
          by_cases hid : id = d.dataset_id
          · subst hid
            rw [dictGet_dictSet_self, dictGet_dictSet_self]
            simp
          · rw [dictGet_dictSet_ne _ _ _ _ (fun hh => hid hh.symm),
                dictGet_dictSet_ne _ _ _ _ (fun hh => hid hh.symm)]
            exact ih1 id
        · dsimp only at hd hl
          by_cases hid : id = d.dataset_id
          · subst hid
            rw [dictGet_dictSet_self] at hd hl
            cases hd
            cases hl
            exact hl0
          · rw [dictGet_dictSet_ne _ _ _ _ (fun hh => hid hh.symm)] at hd
            rw [dictGet_dictSet_ne _ _ _ _ (fun hh => hid hh.symm)] at hl
            exact ih2 id dd ll hd hl
      unfold DatasetRegistry.register
      rcases hx : dictGet d.dataset_id r.listings with _ | ex
      · simp only [hx]
        exact main _ rfl
      · simp only [hx]
        exact main _ rfl
  | incr r id0 _ ih =>
      obtain ⟨ih1, ih2⟩ := ih
      unfold DatasetRegistry.increment_downloads
      rcases hx : dictGet id0 r.listings with _ | listing
      · simp only [hx]
        exact ⟨ih1, ih2⟩
      · simp only [hx]
        refine ⟨fun id => ?_, fun id dd ll hd hl => ?_⟩
        · dsimp only
          by_cases hid : id = id0
          · subst hid
            rw [dictGet_dictSet_self]
            constructor
            · intro _
              simp
            · intro _
              exact (ih1 id).mpr (by rw [hx]; simp)
          · rw [dictGet_dictSet_ne _ _ _ _ (fun hh => hid hh.symm)]
            exact ih1 id
        · dsimp only at hd hl
          by_cases hid : id = id0
          · subst hid
            rw [dictGet_dictSet_self] at hl
            cases hl
            exact ih2 id dd listing hd hx
          · rw [dictGet_dictSet_ne _ _ _ _ (fun hh => hid hh.symm)] at hl
            exact ih2 id dd ll hd hl

/-- C10 witness: the coherence invariant instantiated at a concrete reachable
state, one `register` then one `increment_downloads` away from the initial
state. -/
theorem reachable_registry_coherent_witness :
    coherent ((DatasetRegistry.init.register sampleDataset).increment_downloads "ds-001") :=
  reachable_registry_coherent _
    (Reachable.incr _ "ds-001" (Reachable.register _ sampleDataset Reachable.init))

end AumaiAlignment
